import Mathlib

/-!
Verification of the TrafficToll per-process traffic shaper (the
`traffictoll` Python package) against its natural-language specification.

Every definition below is a shallow embedding of one piece of the Python
source; the doc comment of each definition names the file and symbol it
embeds.  External effects (the `shutil.which` path lookup, subprocess
results, speed-test output, kernel filter tables) are passed in explicitly
as parameters so that the control flow of the embedded code stays exactly
that of the source.
-/

namespace TrafficToll

/-- Python exception values raised by the embedded code: the project's own
exception classes (`traffictoll/exceptions.py`) together with the built-in
exceptions the source can raise. -/
inductive PyExc where
  | runtimeError (msg : String)
  | missingDependencyError (msg : String)
  | dependencyOutputError (msg : String)
  | configError (msg : String)
  | valueError (msg : String)
  | typeError (msg : String)
  | keyError (msg : String)
  deriving DecidableEq

/-- Result of `subprocess.run` with captured standard output, as returned by
`utils.run` (`traffictoll/utils.py`). -/
structure CompletedProcess where
  returncode : Int
  stdout : String
  deriving DecidableEq

/-- Embedding of `utils.run` (`traffictoll/utils.py`, lines 18-25).
`resolver` stands for the cached `shutil.which` lookup `_which`; `command`
is the command-line string and `words` the result of `shlex.split(command)`
on it; `result` stands for the completed subprocess in the case where one is
spawned.  The source raises the built-in `RuntimeError` when the head word
does not resolve (the `repr` quoting of the command in the message is
elided here), and otherwise returns the completed process without
inspecting its exit status.  An empty split fails tuple unpacking with
`ValueError`. -/
def run (resolver : String → Option String) (command : String)
    (words : List String) (result : CompletedProcess) :
    Except PyExc CompletedProcess :=
  match words with
  | [] => Except.error (PyExc.valueError
      "not enough values to unpack (expected at least 1, got 0)")
  | executable :: _ =>
    match resolver executable with
    | none => Except.error (PyExc.runtimeError
        ("Executable for command: " ++ command ++ " not found"))
    | some _ => Except.ok result

/-- Discriminator: did the computation raise `MissingDependencyError`? -/
def raisedMissingDependency {α : Type} : Except PyExc α → Bool
  | Except.error (PyExc.missingDependencyError _) => true
  | _ => false

/-- Discriminator: did the computation raise the built-in `RuntimeError`? -/
def raisedRuntimeError {α : Type} : Except PyExc α → Bool
  | Except.error (PyExc.runtimeError _) => true
  | _ => false

/-! ## The top-level entry point (`traffictoll/__main__.py`) -/

/-- Possible outcomes of one invocation of `cli.main`, as distinguished by
the exception handlers of `__main__.main` (`traffictoll/__main__.py`,
lines 16-26). -/
inductive CliOutcome where
  | finished
  | interrupted
  | badConfig (msg : String)
  | missingDependency (msg : String)
  | unexpectedError
  deriving DecidableEq

/-- Log levels used by the entry point's handlers. -/
inductive LogLevel where
  | info
  | error
  deriving DecidableEq

/-- What the top-level entry point logs, and the status the interpreter
exits with after it returns. -/
structure MainExit where
  logged : List (LogLevel × String)
  exitCode : Nat
  deriving DecidableEq

/-- Embedding of `__main__.main` (`traffictoll/__main__.py`, lines 9-26):
`KeyboardInterrupt` is logged at info level, `ConfigError`,
`MissingDependencyError` and every other `Exception` are logged at error
level, and every handler falls through, so `main` returns normally and the
interpreter exits with status 0 in all cases. -/
def dunder_main (outcome : CliOutcome) : MainExit :=
  match outcome with
  | CliOutcome.finished => { logged := [], exitCode := 0 }
  | CliOutcome.interrupted =>
      { logged := [(LogLevel.info, "Aborted")], exitCode := 0 }
  | CliOutcome.badConfig m =>
      { logged := [(LogLevel.error, "Invalid configuration: " ++ m)],
        exitCode := 0 }
  | CliOutcome.missingDependency m =>
      { logged := [(LogLevel.error, "Missing dependency: " ++ m)],
        exitCode := 0 }
  | CliOutcome.unexpectedError =>
      { logged := [(LogLevel.error, "Unexpected error occurred:")],
        exitCode := 0 }

/-! ## The speed-test helper (`traffictoll/speedtest.py`) and its use in
`cli.main` -/

/-- Boolean prefix test on character lists: the model of Python string
prefix matching (`str.startswith`). -/
def startsWithChars : List Char → List Char → Bool
  | [], _ => true
  | _ :: _, [] => false
  | p :: ps, c :: cs => if p = c then startsWithChars ps cs else false

/-- Result of a successful speed test, `SpeedTestResult` in
`traffictoll/speedtest.py`. -/
structure SpeedTestResult where
  download_rate : Int
  upload_rate : Int
  deriving DecidableEq

/-- The environment one speed-test attempt runs against: whether the
`speedtest` binary resolves on PATH, the standard output of
`speedtest --version`, whether the JSON printed by the provider command
parses with the required fields, and the rates it reports when it does. -/
structure SpeedTestEnv where
  binaryOnPath : Bool
  versionOutput : List Char
  jsonParses : Bool
  reportedDownload : Int
  reportedUpload : Int

/-- The provider detected by `_get_speedtest_provider`
(`traffictoll/speedtest.py`, `_SpeedTestProvider`). -/
inductive SpeedTestProvider where
  | ookla
  | sivel
  | unknown
  deriving DecidableEq

/-- Embedding of `_get_speedtest_provider` (`traffictoll/speedtest.py`):
runs `speedtest --version` through `utils.run` (raising `RuntimeError` when
the binary is absent) and dispatches on the prefix of its output. -/
def _get_speedtest_provider (env : SpeedTestEnv) :
    Except PyExc SpeedTestProvider :=
  if env.binaryOnPath = false then
    Except.error (PyExc.runtimeError
      "Executable for command: speedtest --version not found")
  else if startsWithChars "Speedtest by Ookla".data env.versionOutput then
    Except.ok SpeedTestProvider.ookla
  else if startsWithChars "speedtest-cli".data env.versionOutput then
    Except.ok SpeedTestProvider.sivel
  else
    Except.ok SpeedTestProvider.unknown

/-- Embedding of `_ookla_speedtest_cli` (`traffictoll/speedtest.py`): when
the JSON output lacks the required fields, raise `DependencyOutputError`. -/
def _ookla_speedtest_cli (env : SpeedTestEnv) : Except PyExc SpeedTestResult :=
  if env.jsonParses then
    Except.ok ⟨env.reportedDownload, env.reportedUpload⟩
  else
    Except.error (PyExc.dependencyOutputError
      "Command: speedtest --format=json returned unrecognized output")

/-- Embedding of `_sivel_speedtest_cli` (`traffictoll/speedtest.py`). -/
def _sivel_speedtest_cli (env : SpeedTestEnv) : Except PyExc SpeedTestResult :=
  if env.jsonParses then
    Except.ok ⟨env.reportedDownload, env.reportedUpload⟩
  else
    Except.error (PyExc.dependencyOutputError
      "Command: speedtest --json returned unrecognized output")

/-- Embedding of `test_speed` (`traffictoll/speedtest.py`): detect the
provider, then query it; an unknown provider falls off the end of the
function and returns `None`. -/
def test_speed (env : SpeedTestEnv) : Except PyExc (Option SpeedTestResult) :=
  match _get_speedtest_provider env with
  | Except.error e => Except.error e
  | Except.ok SpeedTestProvider.ookla =>
      (_ookla_speedtest_cli env).map some
  | Except.ok SpeedTestProvider.sivel =>
      (_sivel_speedtest_cli env).map some
  | Except.ok SpeedTestProvider.unknown => Except.ok none

/-- Embedding of the speed-test block of `cli.main` (`traffictoll/cli.py`,
lines 82-105): read the configured global rates; when `--speed-test` was
given, call `test_speed` guarded by handlers for `MissingDependencyError`
and `DependencyOutputError` only (each sets `result = None`); a `None`
result falls back to the configured values, and every other exception
propagates out of `cli.main`. -/
def main_speed_test_phase (speedTestFlag : Bool)
    (configDownload configUpload : Option Int) (env : SpeedTestEnv) :
    Except PyExc (Option Int × Option Int) :=
  if speedTestFlag = false then Except.ok (configDownload, configUpload)
  else
    match test_speed env with
    | Except.error (PyExc.missingDependencyError _) =>
        Except.ok (configDownload, configUpload)
    | Except.error (PyExc.dependencyOutputError _) =>
        Except.ok (configDownload, configUpload)
    | Except.error e => Except.error e
    | Except.ok none => Except.ok (configDownload, configUpload)
    | Except.ok (some r) =>
        Except.ok (some r.download_rate, some r.upload_rate)

/-- A speed-test environment in which the `speedtest` binary is absent from
PATH. -/
def envBinaryMissing : SpeedTestEnv :=
  { binaryOnPath := false, versionOutput := [], jsonParses := true,
    reportedDownload := 50000000, reportedUpload := 5000000 }

/-- A speed-test environment in which the Ookla client is found but prints
JSON the driver cannot parse. -/
def envBadJson : SpeedTestEnv :=
  { binaryOnPath := true,
    versionOutput := "Speedtest by Ookla 1.2.0".data, jsonParses := false,
    reportedDownload := 0, reportedUpload := 0 }

/-- A speed-test environment in which the binary reports an unrecognized
provider. -/
def envUnknownProvider : SpeedTestEnv :=
  { binaryOnPath := true, versionOutput := "some other tool 3.1".data,
    jsonParses := true, reportedDownload := 50000000,
    reportedUpload := 5000000 }

/-! ## The TC driver (`traffictoll/tc.py`) -/

/-- A filter on a list shrinks by at least one element when some member of
the list passes the looser predicate but not the stricter one. -/
theorem length_filter_le_of_imp {α : Type} {p q : α → Bool} (l : List α)
    (himp : ∀ x, q x = true → p x = true) :
    (l.filter q).length ≤ (l.filter p).length := by
  induction l with
  | nil => simp
  | cons b t ih =>
    cases hq : q b with
    | true =>
      have hp := himp b hq
      simp only [List.filter_cons, hq, hp, if_true, List.length_cons]
      omega
    | false =>
      cases hp : p b <;>
        simp only [List.filter_cons, hq, hp, if_true, if_false,
          Bool.false_eq_true, List.length_cons] <;> omega

/-- Strict version of `length_filter_le_of_imp`, used for termination of the
free-id search. -/
theorem length_filter_lt_of_mem {α : Type} {l : List α} {a : α}
    {p q : α → Bool} (ha : a ∈ l) (hpa : p a = true) (hqa : q a = false)
    (himp : ∀ x, q x = true → p x = true) :
    (l.filter q).length < (l.filter p).length := by
  induction l with
  | nil => cases ha
  | cons b t ih =>
    rcases List.mem_cons.mp ha with h | hmem
    · subst h
      simp only [List.filter_cons, hpa, hqa, if_true, Bool.false_eq_true,
        if_false, List.length_cons]
      exact Nat.lt_succ_of_le (length_filter_le_of_imp t himp)
    · cases hq : q b with
      | true =>
        have hp := himp b hq
        simp only [List.filter_cons, hq, hp, if_true, List.length_cons]
        exact Nat.succ_lt_succ (ih hmem)
      | false =>
        cases hp : p b <;>
          simp only [List.filter_cons, hq, hp, if_true, Bool.false_eq_true,
            if_false, List.length_cons] <;>
        · have := ih hmem
          omega

/-- The while loop of `_find_free_id` (`traffictoll/tc.py`, lines 78-81):
starting from `current`, count upward while the candidate id is in use. -/
def _find_free_id_loop (ids : List Int) (current : Int) : Int :=
  if h : current ∈ ids then _find_free_id_loop ids (current + 1) else current
termination_by (ids.filter (fun x => decide (current ≤ x))).length
decreasing_by
  exact length_filter_lt_of_mem h (by simp) (by simp)
    (fun x hx => by simp only [decide_eq_true_eq] at hx ⊢; omega)

/-- Embedding of `_find_free_id` (`traffictoll/tc.py`, lines 74-81): the
argument is the set of ids in use (modeled as a list), the search starts at
1. -/
def _find_free_id (ids : List Int) : Int :=
  _find_free_id_loop ids 1

/-- The free-id search loop returns the smallest integer at least `current`
that is not in use. -/
theorem _find_free_id_loop_spec (ids : List Int) (current : Int) :
    _find_free_id_loop ids current ∉ ids ∧
      current ≤ _find_free_id_loop ids current ∧
      ∀ m : Int, current ≤ m → m < _find_free_id_loop ids current →
        m ∈ ids := by
  rw [_find_free_id_loop]
  split
  case isTrue h =>
    obtain ⟨h1, h2, h3⟩ := _find_free_id_loop_spec ids (current + 1)
    refine ⟨h1, by omega, ?_⟩
    intro m hm hlt
    by_cases hmc : m = current
    · subst hmc; exact h
    · exact h3 m (by omega) hlt
  case isFalse h =>
    exact ⟨h, le_refl current, fun m hm hlt => absurd hm (by omega)⟩
termination_by (ids.filter (fun x => decide (current ≤ x))).length
decreasing_by
  rename_i h
  exact length_filter_lt_of_mem h (by simp) (by simp)
    (fun x hx => by simp only [decide_eq_true_eq] at hx ⊢; omega)

/-- The positional parameters of `tc_setup` (`traffictoll/tc.py`,
lines 130-137); only `device` has no default value. -/
def tc_setup_params : List String :=
  ["device", "download_rate", "download_minimum_rate", "upload_rate",
   "upload_minimum_rate", "default_priority"]

/-- The positional arguments `cli.main` passes to `tc_setup`
(`traffictoll/cli.py`, lines 182-190). -/
def main_tc_setup_args : List String :=
  ["arguments.device", "global_download_rate",
   "global_download_minimum_rate", "global_upload_rate",
   "global_upload_minimum_rate", "global_download_priority",
   "global_upload_priority"]

/-- A Python call that passes only positional arguments to a function with
no varargs binds iff the argument count is at least the number of
parameters without defaults and at most the total number of parameters;
otherwise the call raises `TypeError`. -/
def python_call_binds (params : List String) (requiredCount : Nat)
    (args : List String) : Bool :=
  decide (requiredCount ≤ args.length) && decide (args.length ≤ params.length)

/-- The priorities `tc_setup` hands to `tc_add_htb_class` for its two
default leaf classes (`traffictoll/tc.py`, lines 158-160 for the ingress
side, 178-180 for the egress side): the single `default_priority` parameter
is used on both sides. -/
def tc_setup_default_leaf_priorities (default_priority : Int) : Int × Int :=
  (default_priority, default_priority)

/-- Embedding of the handle-set difference taken by `tc_add_u32_filter`
(`traffictoll/tc.py`, line 227): the handles observed after the insertion
minus those observed before.  The observations made by `_get_filter_ids`
are Python sets; they are modeled as lists and deduplicated here. -/
def filter_id_difference (before after : List String) : List String :=
  after.dedup.filter (fun h => decide (h ∉ before))

/-- Embedding of `tc_add_u32_filter` (`traffictoll/tc.py`, lines 219-230),
parameterized by the filter handles `_get_filter_ids` observes before and
after the insertion command runs.  `set.pop()` on the empty difference
raises `KeyError`; on a nonempty difference it returns an arbitrary
element, modeled as the first. -/
def tc_add_u32_filter (before after : List String) : Except PyExc String :=
  match (filter_id_difference before after).head? with
  | none => Except.error (PyExc.keyError "pop from an empty set")
  | some h => Except.ok h

/-- The condition under which `tc_add_u32_filter` logs the
ambiguous-handle warning (`traffictoll/tc.py`, lines 228-229): the
difference holds more than one element. -/
def tc_add_u32_filter_warns (before after : List String) : Bool :=
  decide (1 < (filter_id_difference before after).length)

/-! ## The default-priority computation (`traffictoll/cli.py`) -/

/-- The two priority keys of one group record as read by the
default-priority loop of `cli.main`; `none` models an absent key. -/
structure GroupPriorities where
  uploadPriority : Option Int
  downloadPriority : Option Int
  deriving DecidableEq

/-- Embedding of the default-priority computation of `cli.main`
(`traffictoll/cli.py`, lines 129-133): starting from -1, fold over the
groups taking the maximum with each group's `upload-priority` and then its
`download-priority` (the `.get` default -1 stands in for a missing key),
and add 1 once after the loop. -/
def lowest_priority (processes : List GroupPriorities) : Int :=
  (processes.foldl
    (fun acc p =>
      max (p.downloadPriority.getD (-1)) (max (p.uploadPriority.getD (-1)) acc))
    (-1)) + 1

/-- Stated from the spec's words (default-priority rule, spec section 4.4):
one plus the maximum over all groups of the larger of the group's two
priorities, where a missing priority contributes -1 and the maximum over no
groups is -1. -/
def spec_default_priority (processes : List GroupPriorities) : Int :=
  ((processes.map
      (fun p => max (p.uploadPriority.getD (-1)) (p.downloadPriority.getD (-1)))).foldr
    max (-1)) + 1

/-! ## The process matcher (`traffictoll/net.py`) -/

/-- A Python value read from a process attribute by `_match_process`
(`traffictoll/net.py`): a string, an integer, or a sequence of strings. -/
inductive AttrValue where
  | str (s : String)
  | int (n : Int)
  | strList (l : List String)

/-- The value normalization of `_match_process` (`traffictoll/net.py`,
lines 20-24): an integer becomes its decimal string, a list or tuple is
joined with single spaces, and a string is used as is. -/
def conditionValueString : AttrValue → String
  | AttrValue.str s => s
  | AttrValue.int n => toString n
  | AttrValue.strList l => String.intercalate " " l

/-- Embedding of `_match_process` (`traffictoll/net.py`, lines 17-29),
parameterized by the regex engine `reMatch` (Python `re.match pattern s`,
true iff the pattern matches at the start of the string) and by the
process attribute table `attrs`.  The loop returns False on the first
failing condition and True once all conditions have matched. -/
def _match_process (reMatch : String → String → Bool)
    (attrs : String → AttrValue) : List (String × String) → Bool
  | [] => true
  | (name, regex) :: rest =>
    if reMatch regex (conditionValueString (attrs name)) then
      _match_process reMatch attrs rest
    else false

/-- Model of Python `re.match pattern s` for the fragment of patterns that
are a literal optionally preceded by the `^` anchor (redundant at the start
of a pattern): the match succeeds iff the literal is a prefix of the
string.  `re.match` anchors at the start of the string and is unanchored on
the right. -/
def re_match_literal (pattern s : String) : Bool :=
  match pattern.data with
  | '^' :: rest => startsWithChars rest s.data
  | chars => startsWithChars chars s.data

/-- Attribute table of a process whose `name` attribute is `chromium`. -/
def chromiumAttrs : String → AttrValue :=
  fun _ => AttrValue.str "chromium"

/-- Attribute table of a process whose `name` attribute is
`google-chromium`. -/
def googleChromiumAttrs : String → AttrValue :=
  fun _ => AttrValue.str "google-chromium"

/-! ## The reconciliation loop state (`traffictoll/cli.py`) -/

/-- Traffic direction, `_TrafficType` in `traffictoll/cli.py`. -/
inductive TrafficType where
  | ingress
  | egress
  deriving DecidableEq

/-- Lookup in an association list, the model of reading a Python dict keyed
by `k`. -/
def alookup {α β : Type} [DecidableEq α] (k : α) :
    List (α × β) → Option β
  | [] => none
  | (k', v) :: rest => if k' = k then some v else alookup k rest

/-- Deletion from an association list, the model of Python `del d[k]`. -/
def aerase {α β : Type} [DecidableEq α] (k : α) (l : List (α × β)) :
    List (α × β) :=
  l.filter (fun p => decide (p.1 ≠ k))

/-- The mutable state of the reconciliation loop in `cli.main`
(`traffictoll/cli.py`, lines 301-376): the per-direction registry
`port_to_filter_id` mapping local ports to kernel filter handles, the
per-group tracked port sets `filtered_ports`, and the log of
`tc_remove_u32_filter` invocations issued so far (direction and the handle
passed to `tc filter del`). -/
structure LoopState where
  ingressFilters : List (Nat × String)
  egressFilters : List (Nat × String)
  filteredPorts : List (String × List Nat)
  removedCalls : List (TrafficType × String)
  deriving DecidableEq

/-- One direction's block of the closure `remove_filters`
(`traffictoll/cli.py`, lines 319-322 for ingress, 324-327 for egress):
look the port up in that direction's registry; a truthy handle (present and
nonempty) is removed with `tc_remove_u32_filter` (the call is appended to
the log) and its registry entry is deleted. -/
def remove_direction_filter (dir : TrafficType)
    (filters : List (Nat × String)) (calls : List (TrafficType × String))
    (port : Nat) : List (Nat × String) × List (TrafficType × String) :=
  match alookup port filters with
  | some fid =>
    if fid ≠ "" then (aerase port filters, calls ++ [(dir, fid)])
    else (filters, calls)
  | none => (filters, calls)

/-- Embedding of the closure `remove_filters` (`traffictoll/cli.py`,
lines 318-327): the ingress block runs first, then the egress block, on the
same state. -/
def remove_filters (st : LoopState) (port : Nat) : LoopState :=
  let ing := remove_direction_filter TrafficType.ingress st.ingressFilters
    st.removedCalls port
  let eg := remove_direction_filter TrafficType.egress st.egressFilters
    ing.2 port
  { ingressFilters := ing.1, egressFilters := eg.1,
    filteredPorts := st.filteredPorts, removedCalls := eg.2 }

/-- Embedding of one iteration of the stale-group sweep of `cli.main`
(`traffictoll/cli.py`, lines 366-376): sort the group's tracked ports,
remove the filters of each, and delete the group from `filtered_ports`.
Python's `sorted` is modeled by insertion sort, which agrees with it on
natural numbers. -/
def remove_stale_group (st : LoopState) (name : String) : LoopState :=
  let freed_ports :=
    ((alookup name st.filteredPorts).getD []).insertionSort (· ≤ ·)
  let st1 := freed_ports.foldl remove_filters st
  { st1 with filteredPorts := aerase name st1.filteredPorts }

/-- Embedding of the stale-group sweep of one reconciliation tick
(`traffictoll/cli.py`, lines 364-376): every group name tracked in
`filtered_ports` but absent from the resolver's current output is swept.
`current` lists the group names of `filtered_connections`. -/
def remove_stale_groups (st : LoopState) (current : List String) :
    LoopState :=
  ((st.filteredPorts.map Prod.fst).filter
      (fun n => decide (n ∉ current))).foldl remove_stale_group st

/-- Registry invariant: every stored handle is truthy (a nonempty string),
as holds for every handle `tc_add_u32_filter` can store, since
`FILTER_ID_REGEX` only produces nonempty matches. -/
abbrev registry_values_truthy (st : LoopState) : Prop :=
  (∀ pr ∈ st.ingressFilters, pr.2 ≠ "") ∧
    ∀ pr ∈ st.egressFilters, pr.2 ≠ ""

/-- The port either still maps to the handle in the ingress registry, or
the ingress removal call for that handle has been issued. -/
abbrev ghostIngress (p0 : Nat) (fid : String) (st : LoopState) : Prop :=
  alookup p0 st.ingressFilters = some fid ∨
    (TrafficType.ingress, fid) ∈ st.removedCalls

/-- The port either still maps to the handle in the egress registry, or the
egress removal call for that handle has been issued. -/
abbrev ghostEgress (p0 : Nat) (fid : String) (st : LoopState) : Prop :=
  alookup p0 st.egressFilters = some fid ∨
    (TrafficType.egress, fid) ∈ st.removedCalls

/-- A concrete loop state: the group `nginx` is tracked on ports 80 and
443, with ingress filters for both and an egress filter for port 80. -/
def exampleLoopState : LoopState :=
  { ingressFilters := [(80, "800::800"), (443, "800::801")],
    egressFilters := [(80, "801::800")],
    filteredPorts := [("nginx", [80, 443])],
    removedCalls := [] }

/-- Folding `max` from the right commutes with a `max` in the seed. -/
theorem foldr_max_max (l : List Int) (x y : Int) :
    l.foldr max (max x y) = max x (l.foldr max y) := by
  induction l with
  | nil => rfl
  | cons a t ih => simp only [List.foldr_cons, ih, max_left_comm]

/-- The interleaved foldl of the source equals a right fold of per-group
maxima. -/
theorem lowest_priority_foldl_eq (l : List GroupPriorities) (acc : Int) :
    l.foldl
        (fun acc p =>
          max (p.downloadPriority.getD (-1))
            (max (p.uploadPriority.getD (-1)) acc))
        acc =
      (l.map
          (fun p =>
            max (p.uploadPriority.getD (-1)) (p.downloadPriority.getD (-1)))).foldr
        max acc := by
  induction l generalizing acc with
  | nil => rfl
  | cons p t ih =>
    simp only [List.foldl_cons, List.map_cons, List.foldr_cons, ih]
    rw [← foldr_max_max]
    congr 1
    rw [max_comm (p.uploadPriority.getD (-1)) (p.downloadPriority.getD (-1)),
      max_assoc]

/-! ## Association-list lemmas -/

/-- A successful lookup exhibits a member of the list. -/
theorem alookup_eq_some_mem {α β : Type} [DecidableEq α] {k : α} {v : β}
    {l : List (α × β)} (h : alookup k l = some v) : (k, v) ∈ l := by
  induction l with
  | nil => cases h
  | cons pr t ih =>
    obtain ⟨k', v'⟩ := pr
    by_cases hk : k' = k
    · rw [alookup, if_pos hk] at h
      injection h with hv
      subst hk; subst hv
      exact List.mem_cons_self _ _
    · rw [alookup, if_neg hk] at h
      exact List.mem_cons_of_mem _ (ih h)

/-- A successful lookup puts the key among the keys. -/
theorem alookup_mem_map_fst {α β : Type} [DecidableEq α] {k : α} {v : β}
    {l : List (α × β)} (h : alookup k l = some v) : k ∈ l.map Prod.fst := by
  have := alookup_eq_some_mem h
  exact List.mem_map_of_mem Prod.fst this

/-- Filtering cannot create an entry for a key that has none. -/
theorem alookup_filter_none {α β : Type} [DecidableEq α] {k : α}
    (p : α × β → Bool) {l : List (α × β)} (h : alookup k l = none) :
    alookup k (l.filter p) = none := by
  induction l with
  | nil => rfl
  | cons pr t ih =>
    obtain ⟨k', v'⟩ := pr
    by_cases hk : k' = k
    · rw [alookup, if_pos hk] at h
      cases h
    · rw [alookup, if_neg hk] at h
      cases hp : p (k', v') <;>
        simp [List.filter_cons, hp, alookup, hk, ih h]

/-- Deleting a key removes its entry. -/
theorem alookup_aerase_self {α β : Type} [DecidableEq α] (k : α)
    (l : List (α × β)) : alookup k (aerase k l) = none := by
  induction l with
  | nil => rfl
  | cons pr t ih =>
    obtain ⟨k', v'⟩ := pr
    by_cases hk : k' = k
    · simpa [aerase, List.filter_cons, hk] using ih
    · simpa [aerase, List.filter_cons, hk, alookup] using ih

/-- Deleting one key leaves the lookup of any other key unchanged. -/
theorem alookup_aerase_ne {α β : Type} [DecidableEq α] {k k' : α}
    (h : k ≠ k') (l : List (α × β)) :
    alookup k (aerase k' l) = alookup k l := by
  induction l with
  | nil => rfl
  | cons pr t ih =>
    obtain ⟨k'', v⟩ := pr
    by_cases hk : k'' = k'
    · have ha : aerase k' ((k'', v) :: t) = aerase k' t := by
        simp [aerase, List.filter_cons, hk]
      have hnk : ¬ k'' = k := fun hc => h (by rw [← hc, hk])
      rw [ha, ih, alookup, if_neg hnk]
    · have ha : aerase k' ((k'', v) :: t) = (k'', v) :: aerase k' t := by
        simp [aerase, List.filter_cons, hk]
      rw [ha]
      by_cases hkk : k'' = k
      · rw [alookup, if_pos hkk, alookup, if_pos hkk]
      · rw [alookup, if_neg hkk, alookup, if_neg hkk, ih]

/-- Deleting any key preserves the absence of an entry. -/
theorem alookup_aerase_none {α β : Type} [DecidableEq α] {k : α} (k' : α)
    {l : List (α × β)} (h : alookup k l = none) :
    alookup k (aerase k' l) = none :=
  alookup_filter_none _ h

/-! ## Lemmas about one direction's removal block -/

/-- After the block runs for a port, that port has no registry entry,
provided all stored handles are truthy. -/
theorem rdf_lookup_self (dir : TrafficType) (filters : List (Nat × String))
    (calls : List (TrafficType × String)) (port : Nat)
    (hvals : ∀ pr ∈ filters, pr.2 ≠ "") :
    alookup port (remove_direction_filter dir filters calls port).1 =
      none := by
  unfold remove_direction_filter
  cases h : alookup port filters with
  | none => exact h
  | some fid =>
    dsimp only
    have hf : fid ≠ "" := hvals _ (alookup_eq_some_mem h)
    rw [if_pos hf]
    exact alookup_aerase_self port filters

/-- The block leaves other ports' entries unchanged. -/
theorem rdf_lookup_ne (dir : TrafficType) (filters : List (Nat × String))
    (calls : List (TrafficType × String)) {port q : Nat} (hq : q ≠ port) :
    alookup q (remove_direction_filter dir filters calls port).1 =
      alookup q filters := by
  unfold remove_direction_filter
  cases h : alookup port filters with
  | none => rfl
  | some fid =>
    dsimp only
    by_cases hf : fid ≠ ""
    · rw [if_pos hf]
      exact alookup_aerase_ne hq filters
    · rw [if_neg hf]

/-- The block cannot create an entry for a port that has none. -/
theorem rdf_none_preserved (dir : TrafficType)
    (filters : List (Nat × String)) (calls : List (TrafficType × String))
    (port : Nat) {q : Nat} (h : alookup q filters = none) :
    alookup q (remove_direction_filter dir filters calls port).1 = none := by
  unfold remove_direction_filter
  cases hh : alookup port filters with
  | none => exact h
  | some fid =>
    dsimp only
    by_cases hf : fid ≠ ""
    · rw [if_pos hf]
      exact alookup_aerase_none port h
    · rw [if_neg hf]
      exact h

/-- The block only appends to the removal log. -/
theorem rdf_calls_mono (dir : TrafficType) (filters : List (Nat × String))
    (calls : List (TrafficType × String)) (port : Nat)
    {c : TrafficType × String} (h : c ∈ calls) :
    c ∈ (remove_direction_filter dir filters calls port).2 := by
  unfold remove_direction_filter
  cases hh : alookup port filters with
  | none => exact h
  | some fid =>
    dsimp only
    by_cases hf : fid ≠ ""
    · rw [if_pos hf]
      exact List.mem_append_left _ h
    · rw [if_neg hf]
      exact h

/-- The block preserves truthiness of all stored handles. -/
theorem rdf_vals (dir : TrafficType) (filters : List (Nat × String))
    (calls : List (TrafficType × String)) (port : Nat)
    (hvals : ∀ pr ∈ filters, pr.2 ≠ "") :
    ∀ pr ∈ (remove_direction_filter dir filters calls port).1,
      pr.2 ≠ "" := by
  intro pr hpr
  unfold remove_direction_filter at hpr
  cases hh : alookup port filters with
  | none =>
    rw [hh] at hpr
    exact hvals _ hpr
  | some fid =>
    rw [hh] at hpr
    dsimp only at hpr
    by_cases hf : fid ≠ ""
    · rw [if_pos hf] at hpr
      exact hvals _ (List.mem_of_mem_filter hpr)
    · rw [if_neg hf] at hpr
      exact hvals _ hpr

/-- The block maintains the removal invariant: a port either keeps its
entry or the removal call for its handle is in the log. -/
theorem rdf_ghost (dir : TrafficType) (filters : List (Nat × String))
    (calls : List (TrafficType × String)) (port : Nat)
    (hvals : ∀ pr ∈ filters, pr.2 ≠ "") {p0 : Nat} {fid : String}
    (h : alookup p0 filters = some fid ∨ (dir, fid) ∈ calls) :
    alookup p0 (remove_direction_filter dir filters calls port).1 =
        some fid ∨
      (dir, fid) ∈ (remove_direction_filter dir filters calls port).2 := by
  rcases h with h | h
  · by_cases hp : p0 = port
    · subst hp
      right
      unfold remove_direction_filter
      rw [h]
      dsimp only
      have hf : fid ≠ "" := hvals _ (alookup_eq_some_mem h)
      rw [if_pos hf]
      simp
    · left
      rw [rdf_lookup_ne dir filters calls hp]
      exact h
  · right
    exact rdf_calls_mono dir filters calls port h

/-! ## Lemmas about `remove_filters` -/

/-- Removing a port's filters does not change the tracked group table. -/
theorem rf_filteredPorts (st : LoopState) (port : Nat) :
    (remove_filters st port).filteredPorts = st.filteredPorts := rfl

/-- Removing a port's filters preserves handle truthiness. -/
theorem rf_vals (st : LoopState) (port : Nat)
    (h : registry_values_truthy st) :
    registry_values_truthy (remove_filters st port) :=
  ⟨rdf_vals _ _ _ _ h.1, rdf_vals _ _ _ _ h.2⟩

/-- After `remove_filters st port`, the port has no ingress entry. -/
theorem rf_lookup_self_ingress (st : LoopState) (port : Nat)
    (h : registry_values_truthy st) :
    alookup port (remove_filters st port).ingressFilters = none :=
  rdf_lookup_self _ _ _ _ h.1

/-- After `remove_filters st port`, the port has no egress entry. -/
theorem rf_lookup_self_egress (st : LoopState) (port : Nat)
    (h : registry_values_truthy st) :
    alookup port (remove_filters st port).egressFilters = none :=
  rdf_lookup_self _ _ _ _ h.2

/-- `remove_filters` cannot create an ingress entry. -/
theorem rf_none_ingress (st : LoopState) (port : Nat) {q : Nat}
    (h : alookup q st.ingressFilters = none) :
    alookup q (remove_filters st port).ingressFilters = none :=
  rdf_none_preserved _ _ _ _ h

/-- `remove_filters` cannot create an egress entry. -/
theorem rf_none_egress (st : LoopState) (port : Nat) {q : Nat}
    (h : alookup q st.egressFilters = none) :
    alookup q (remove_filters st port).egressFilters = none :=
  rdf_none_preserved _ _ _ _ h

/-- `remove_filters` only appends to the removal log. -/
theorem rf_calls_mono (st : LoopState) (port : Nat)
    {c : TrafficType × String} (h : c ∈ st.removedCalls) :
    c ∈ (remove_filters st port).removedCalls :=
  rdf_calls_mono _ _ _ _ (rdf_calls_mono _ _ _ _ h)

/-- `remove_filters` maintains the ingress removal invariant. -/
theorem rf_ghost_ingress (st : LoopState) (port : Nat)
    (hvals : registry_values_truthy st) {p0 : Nat} {fid : String}
    (h : ghostIngress p0 fid st) :
    ghostIngress p0 fid (remove_filters st port) := by
  rcases rdf_ghost TrafficType.ingress st.ingressFilters st.removedCalls
      port hvals.1 h with h' | h'
  · exact Or.inl h'
  · exact Or.inr (rdf_calls_mono _ _ _ _ h')

/-- `remove_filters` maintains the egress removal invariant. -/
theorem rf_ghost_egress (st : LoopState) (port : Nat)
    (hvals : registry_values_truthy st) {p0 : Nat} {fid : String}
    (h : ghostEgress p0 fid st) :
    ghostEgress p0 fid (remove_filters st port) := by
  have h1 : alookup p0 st.egressFilters = some fid ∨
      (TrafficType.egress, fid) ∈
        (remove_direction_filter TrafficType.ingress st.ingressFilters
          st.removedCalls port).2 := by
    rcases h with h | h
    · exact Or.inl h
    · exact Or.inr (rdf_calls_mono _ _ _ _ h)
  exact rdf_ghost TrafficType.egress st.egressFilters _ port hvals.2 h1

/-! ## Lemmas about the per-group port sweep -/

/-- Sweeping ports never touches the tracked group table. -/
theorem fold_rf_filteredPorts (ports : List Nat) (st : LoopState) :
    (ports.foldl remove_filters st).filteredPorts = st.filteredPorts := by
  induction ports generalizing st with
  | nil => rfl
  | cons a t ih => exact (ih (remove_filters st a)).trans (rf_filteredPorts st a)

/-- Sweeping ports preserves handle truthiness. -/
theorem fold_rf_vals (ports : List Nat) (st : LoopState)
    (h : registry_values_truthy st) :
    registry_values_truthy (ports.foldl remove_filters st) := by
  induction ports generalizing st with
  | nil => exact h
  | cons a t ih => exact ih _ (rf_vals st a h)

/-- Sweeping ports cannot create an ingress entry. -/
theorem fold_rf_none_ingress (ports : List Nat) (st : LoopState) {q : Nat}
    (h : alookup q st.ingressFilters = none) :
    alookup q (ports.foldl remove_filters st).ingressFilters = none := by
  induction ports generalizing st with
  | nil => exact h
  | cons a t ih => exact ih _ (rf_none_ingress st a h)

/-- Sweeping ports cannot create an egress entry. -/
theorem fold_rf_none_egress (ports : List Nat) (st : LoopState) {q : Nat}
    (h : alookup q st.egressFilters = none) :
    alookup q (ports.foldl remove_filters st).egressFilters = none := by
  induction ports generalizing st with
  | nil => exact h
  | cons a t ih => exact ih _ (rf_none_egress st a h)

/-- Sweeping ports only appends to the removal log. -/
theorem fold_rf_calls_mono (ports : List Nat) (st : LoopState)
    {c : TrafficType × String} (h : c ∈ st.removedCalls) :
    c ∈ (ports.foldl remove_filters st).removedCalls := by
  induction ports generalizing st with
  | nil => exact h
  | cons a t ih => exact ih _ (rf_calls_mono st a h)

/-- Sweeping ports maintains the ingress removal invariant. -/
theorem fold_rf_ghost_ingress (ports : List Nat) (st : LoopState)
    (hvals : registry_values_truthy st) {p0 : Nat} {fid : String}
    (h : ghostIngress p0 fid st) :
    ghostIngress p0 fid (ports.foldl remove_filters st) := by
  induction ports generalizing st with
  | nil => exact h
  | cons a t ih =>
    exact ih _ (rf_vals st a hvals) (rf_ghost_ingress st a hvals h)

/-- Sweeping ports maintains the egress removal invariant. -/
theorem fold_rf_ghost_egress (ports : List Nat) (st : LoopState)
    (hvals : registry_values_truthy st) {p0 : Nat} {fid : String}
    (h : ghostEgress p0 fid st) :
    ghostEgress p0 fid (ports.foldl remove_filters st) := by
  induction ports generalizing st with
  | nil => exact h
  | cons a t ih =>
    exact ih _ (rf_vals st a hvals) (rf_ghost_egress st a hvals h)

/-- Sweeping a list of ports removes both registry entries of every port in
the list. -/
theorem fold_rf_removes (ports : List Nat) (st : LoopState)
    (hvals : registry_values_truthy st) {p0 : Nat} (hmem : p0 ∈ ports) :
    alookup p0 (ports.foldl remove_filters st).ingressFilters = none ∧
      alookup p0 (ports.foldl remove_filters st).egressFilters = none := by
  induction ports generalizing st with
  | nil => cases hmem
  | cons a t ih =>
    by_cases hp : p0 = a
    · subst hp
      exact ⟨fold_rf_none_ingress t _ (rf_lookup_self_ingress st p0 hvals),
        fold_rf_none_egress t _ (rf_lookup_self_egress st p0 hvals)⟩
    · have hmem' : p0 ∈ t := by
        rcases List.mem_cons.mp hmem with h | h
        · exact absurd h hp
        · exact h
      exact ih _ (rf_vals st a hvals) hmem'

/-! ## Lemmas about `remove_stale_group` -/

/-- The sweep of one stale group deletes exactly that group from the
tracked table. -/
theorem rsg_filteredPorts (st : LoopState) (name : String) :
    (remove_stale_group st name).filteredPorts =
      aerase name st.filteredPorts := by
  simp only [remove_stale_group]
  rw [fold_rf_filteredPorts]

/-- The sweep of one stale group preserves handle truthiness. -/
theorem rsg_vals (st : LoopState) (name : String)
    (h : registry_values_truthy st) :
    registry_values_truthy (remove_stale_group st name) :=
  fold_rf_vals _ st h

/-- The sweep of one stale group cannot create an ingress entry. -/
theorem rsg_none_ingress (st : LoopState) (name : String) {q : Nat}
    (h : alookup q st.ingressFilters = none) :
    alookup q (remove_stale_group st name).ingressFilters = none :=
  fold_rf_none_ingress _ st h

/-- The sweep of one stale group cannot create an egress entry. -/
theorem rsg_none_egress (st : LoopState) (name : String) {q : Nat}
    (h : alookup q st.egressFilters = none) :
    alookup q (remove_stale_group st name).egressFilters = none :=
  fold_rf_none_egress _ st h

/-- The sweep of one stale group only appends to the removal log. -/
theorem rsg_calls_mono (st : LoopState) (name : String)
    {c : TrafficType × String} (h : c ∈ st.removedCalls) :
    c ∈ (remove_stale_group st name).removedCalls :=
  fold_rf_calls_mono _ st h

/-- The sweep of one stale group maintains the ingress removal
invariant. -/
theorem rsg_ghost_ingress (st : LoopState) (name : String)
    (hvals : registry_values_truthy st) {p0 : Nat} {fid : String}
    (h : ghostIngress p0 fid st) :
    ghostIngress p0 fid (remove_stale_group st name) :=
  fold_rf_ghost_ingress _ st hvals h

/-- The sweep of one stale group maintains the egress removal invariant. -/
theorem rsg_ghost_egress (st : LoopState) (name : String)
    (hvals : registry_values_truthy st) {p0 : Nat} {fid : String}
    (h : ghostEgress p0 fid st) :
    ghostEgress p0 fid (remove_stale_group st name) :=
  fold_rf_ghost_egress _ st hvals h

/-- After its own sweep, the stale group is no longer tracked. -/
theorem rsg_fp_self (st : LoopState) (name : String) :
    alookup name (remove_stale_group st name).filteredPorts = none := by
  rw [rsg_filteredPorts]
  exact alookup_aerase_self name st.filteredPorts

/-- Sweeping one group leaves the tracking of other groups unchanged. -/
theorem rsg_fp_ne (st : LoopState) (name : String) {n : String}
    (hn : n ≠ name) :
    alookup n (remove_stale_group st name).filteredPorts =
      alookup n st.filteredPorts := by
  rw [rsg_filteredPorts]
  exact alookup_aerase_ne hn st.filteredPorts

/-- Sweeping one group cannot start tracking a group. -/
theorem rsg_fp_none (st : LoopState) (name : String) {n : String}
    (h : alookup n st.filteredPorts = none) :
    alookup n (remove_stale_group st name).filteredPorts = none := by
  rw [rsg_filteredPorts]
  exact alookup_aerase_none name h

/-- Sweeping a stale group removes both registry entries of each of its
tracked ports. -/
theorem rsg_removes (st : LoopState) (name : String) (ports : List Nat)
    (hvals : registry_values_truthy st)
    (htracked : alookup name st.filteredPorts = some ports) {p0 : Nat}
    (hp : p0 ∈ ports) :
    alookup p0 (remove_stale_group st name).ingressFilters = none ∧
      alookup p0 (remove_stale_group st name).egressFilters = none := by
  have hmem : p0 ∈
      ((alookup name st.filteredPorts).getD []).insertionSort (· ≤ ·) := by
    rw [htracked]
    exact (List.perm_insertionSort _ ports).mem_iff.mpr hp
  exact fold_rf_removes _ st hvals hmem

/-! ## Lemmas about the stale-group sweep of one tick -/

/-- Sweeping stale groups preserves handle truthiness. -/
theorem rsgs_fold_vals (names : List String) (st : LoopState)
    (h : registry_values_truthy st) :
    registry_values_truthy (names.foldl remove_stale_group st) := by
  induction names generalizing st with
  | nil => exact h
  | cons n t ih => exact ih _ (rsg_vals st n h)

/-- Sweeping stale groups cannot start tracking a group. -/
theorem rsgs_fold_fp_none (names : List String) (st : LoopState)
    {n : String} (h : alookup n st.filteredPorts = none) :
    alookup n (names.foldl remove_stale_group st).filteredPorts = none := by
  induction names generalizing st with
  | nil => exact h
  | cons m t ih => exact ih _ (rsg_fp_none st m h)

/-- Sweeping stale groups cannot create an ingress entry. -/
theorem rsgs_fold_none_ingress (names : List String) (st : LoopState)
    {q : Nat} (h : alookup q st.ingressFilters = none) :
    alookup q (names.foldl remove_stale_group st).ingressFilters = none := by
  induction names generalizing st with
  | nil => exact h
  | cons m t ih => exact ih _ (rsg_none_ingress st m h)

/-- Sweeping stale groups cannot create an egress entry. -/
theorem rsgs_fold_none_egress (names : List String) (st : LoopState)
    {q : Nat} (h : alookup q st.egressFilters = none) :
    alookup q (names.foldl remove_stale_group st).egressFilters = none := by
  induction names generalizing st with
  | nil => exact h
  | cons m t ih => exact ih _ (rsg_none_egress st m h)

/-- Sweeping stale groups only appends to the removal log. -/
theorem rsgs_fold_calls_mono (names : List String) (st : LoopState)
    {c : TrafficType × String} (h : c ∈ st.removedCalls) :
    c ∈ (names.foldl remove_stale_group st).removedCalls := by
  induction names generalizing st with
  | nil => exact h
  | cons m t ih => exact ih _ (rsg_calls_mono st m h)

/-- Sweeping a list of group names that contains a tracked group unregisters
the group, removes both registry entries of all its ports, and has issued
the removal call for every handle those ports carried. -/
theorem rsgs_fold_removes (names : List String) (st : LoopState)
    (name : String) (ports : List Nat)
    (hvals : registry_values_truthy st)
    (htracked : alookup name st.filteredPorts = some ports)
    (hmem : name ∈ names) :
    alookup name (names.foldl remove_stale_group st).filteredPorts = none ∧
      (∀ p0 ∈ ports,
        alookup p0 (names.foldl remove_stale_group st).ingressFilters =
            none ∧
          alookup p0 (names.foldl remove_stale_group st).egressFilters =
            none) ∧
      (∀ p0 ∈ ports, ∀ fid : String, ghostIngress p0 fid st →
        (TrafficType.ingress, fid) ∈
          (names.foldl remove_stale_group st).removedCalls) ∧
      (∀ p0 ∈ ports, ∀ fid : String, ghostEgress p0 fid st →
        (TrafficType.egress, fid) ∈
          (names.foldl remove_stale_group st).removedCalls) := by
  induction names generalizing st with
  | nil => cases hmem
  | cons n t ih =>
    by_cases hn : name = n
    · subst hn
      refine ⟨rsgs_fold_fp_none t _ (rsg_fp_self st name), ?_, ?_, ?_⟩
      · intro p0 hp
        obtain ⟨hi, he⟩ := rsg_removes st name ports hvals htracked hp
        exact ⟨rsgs_fold_none_ingress t _ hi, rsgs_fold_none_egress t _ he⟩
      · intro p0 hp fid hg
        have hg1 : ghostIngress p0 fid (remove_stale_group st name) :=
          rsg_ghost_ingress st name hvals hg
        have hnone := (rsg_removes st name ports hvals htracked hp).1
        have hcall : (TrafficType.ingress, fid) ∈
            (remove_stale_group st name).removedCalls := by
          rcases hg1 with h | h
          · rw [hnone] at h; cases h
          · exact h
        exact rsgs_fold_calls_mono t _ hcall
      · intro p0 hp fid hg
        have hg1 : ghostEgress p0 fid (remove_stale_group st name) :=
          rsg_ghost_egress st name hvals hg
        have hnone := (rsg_removes st name ports hvals htracked hp).2
        have hcall : (TrafficType.egress, fid) ∈
            (remove_stale_group st name).removedCalls := by
          rcases hg1 with h | h
          · rw [hnone] at h; cases h
          · exact h
        exact rsgs_fold_calls_mono t _ hcall
    · have hvals1 := rsg_vals st n hvals
      have htracked1 :
          alookup name (remove_stale_group st n).filteredPorts =
            some ports := by
        rw [rsg_fp_ne st n hn]
        exact htracked
      have hmem1 : name ∈ t := by
        rcases List.mem_cons.mp hmem with h | h
        · exact absurd h hn
        · exact h
      obtain ⟨a1, a2, a3, a4⟩ := ih _ hvals1 htracked1 hmem1
      refine ⟨a1, a2, ?_, ?_⟩
      · intro p0 hp fid hg
        exact a3 p0 hp fid (rsg_ghost_ingress st n hvals hg)
      · intro p0 hp fid hg
        exact a4 p0 hp fid (rsg_ghost_egress st n hvals hg)

/-! ## Claim theorems -/

/-- C1: the claim fails on the code.  `cli.main` passes seven positional
arguments to `tc_setup` (both a download and an upload priority), while
`tc_setup` accepts at most six parameters with a single `default_priority`
that its body applies to both default leaves, so the call raises
`TypeError` for every configuration instead of succeeding and applying each
priority to its side. -/
theorem c1_tc_setup_call_mismatch :
    python_call_binds tc_setup_params 1 main_tc_setup_args = false ∧
      tc_setup_params.length = 6 ∧ main_tc_setup_args.length = 7 ∧
      ∀ p : Int, tc_setup_default_leaf_priorities p = (p, p) :=
  ⟨by decide, by decide, by decide, fun _ => rfl⟩

/-- C2 (counterexample): an unrecoverable error from the controller does
not produce a nonzero exit code; the entry point catches every exception,
logs it, and the process exits with status 0. -/
theorem c2_nonzero_exit_counterexample :
    ¬ (dunder_main CliOutcome.unexpectedError).exitCode ≠ 0 := by
  decide

/-- C2 (amended): the entry point exits with code 0 on every outcome:
clean shutdown and keyboard interrupt, but equally on configuration
errors, missing dependencies, and any other uncaught controller
exception, which are all caught and logged; the interrupt is logged at
info level, not as an error. -/
theorem c2_exit_codes (outcome : CliOutcome) :
    (dunder_main outcome).exitCode = 0 ∧
      (dunder_main CliOutcome.interrupted).logged =
        [(LogLevel.info, "Aborted")] := by
  cases outcome <;> exact ⟨rfl, rfl⟩

/-- C3: `utils.run` on a command line whose head word does not resolve on
PATH raises the built-in `RuntimeError`, not `MissingDependencyError` as
the claim states; a resolved command with nonzero exit status returns
normally without raising. -/
theorem c3_run_error_kind :
    run (fun _ => none) "tc qdisc show dev eth0"
        ["tc", "qdisc", "show", "dev", "eth0"] ⟨0, ""⟩ =
      Except.error (PyExc.runtimeError
        "Executable for command: tc qdisc show dev eth0 not found") ∧
    raisedMissingDependency (run (fun _ => none) "tc qdisc show dev eth0"
        ["tc", "qdisc", "show", "dev", "eth0"] ⟨0, ""⟩) = false ∧
    raisedRuntimeError (run (fun _ => none) "tc qdisc show dev eth0"
        ["tc", "qdisc", "show", "dev", "eth0"] ⟨0, ""⟩) = true ∧
    run (fun b => if b = "tc" then some "/sbin/tc" else none)
        "tc qdisc show dev eth0" ["tc", "qdisc", "show", "dev", "eth0"]
        ⟨2, "RTNETLINK answers: No such file or directory"⟩ =
      Except.ok ⟨2, "RTNETLINK answers: No such file or directory"⟩ := by
  refine ⟨rfl, rfl, rfl, ?_⟩
  simp [run]

/-- C4: with the `--speed-test` flag, unparseable speed-test output and an
unrecognized provider both fall back to the configured global rates, but an
absent `speedtest` binary makes `utils.run` raise `RuntimeError`, which the
handlers around `test_speed` in `cli.main` do not catch, so that failure
propagates out of `main` instead of falling back as the claim states. -/
theorem c4_speed_test_binary_missing_propagates :
    main_speed_test_phase true (some 1000000) (some 500000)
        envBinaryMissing =
      Except.error (PyExc.runtimeError
        "Executable for command: speedtest --version not found") ∧
    raisedRuntimeError (main_speed_test_phase true (some 1000000)
        (some 500000) envBinaryMissing) = true ∧
    main_speed_test_phase true (some 1000000) (some 500000) envBadJson =
      Except.ok (some 1000000, some 500000) ∧
    main_speed_test_phase true (some 1000000) (some 500000)
        envUnknownProvider =
      Except.ok (some 1000000, some 500000) := by
  refine ⟨rfl, rfl, rfl, rfl⟩

/-- C5: the free-id allocator returns an id not in the used set, the id is
positive, and it is the smallest positive integer not in the set. -/
theorem c5_find_free_id_correct (ids : List Int) :
    _find_free_id ids ∉ ids ∧ 1 ≤ _find_free_id ids ∧
      ∀ m : Int, 1 ≤ m → m ∉ ids → _find_free_id ids ≤ m := by
  obtain ⟨h1, h2, h3⟩ := _find_free_id_loop_spec ids 1
  refine ⟨h1, h2, ?_⟩
  intro m hm hnot
  by_contra hlt
  push_neg at hlt
  exact hnot (h3 m hm hlt)

/-- C5 (witness): on the used set of ids 1, 2 and 4, the allocator's result
is outside the set, positive, and at most 3, hence exactly 3. -/
theorem c5_find_free_id_witness :
    _find_free_id [1, 2, 4] ∉ ([1, 2, 4] : List Int) ∧
      1 ≤ _find_free_id [1, 2, 4] ∧ _find_free_id [1, 2, 4] ≤ 3 :=
  ⟨(c5_find_free_id_correct [1, 2, 4]).1,
   (c5_find_free_id_correct [1, 2, 4]).2.1,
   (c5_find_free_id_correct [1, 2, 4]).2.2 3 (by decide) (by decide)⟩

/-- C6: the computed default priority equals one plus the maximum over all
groups of the larger of upload-priority and download-priority, a missing
priority contributing -1; with group priorities 2, 5 and 3 the default is
6, and with no priorities specified anywhere it is 0. -/
theorem c6_default_priority_rule :
    (∀ processes : List GroupPriorities,
        lowest_priority processes = spec_default_priority processes) ∧
      lowest_priority [⟨none, some 2⟩, ⟨some 5, none⟩, ⟨none, some 3⟩] = 6 ∧
      lowest_priority [⟨none, none⟩, ⟨none, none⟩] = 0 ∧
      lowest_priority [] = 0 := by
  refine ⟨fun processes => ?_, by decide, by decide, by decide⟩
  unfold lowest_priority spec_default_priority
  rw [lowest_priority_foldl_eq]

/-- C7: a process matches a predicate set iff every condition in the set
matches, where integers are rendered as decimal strings, sequences are
joined with single spaces, and the regex is applied at the start of the
string; the condition `name ^chrom` matches the name `chromium` and does
not match `google-chromium`. -/
theorem c7_predicate_matching :
    (∀ (reMatch : String → String → Bool) (attrs : String → AttrValue)
        (conditions : List (String × String)),
        (_match_process reMatch attrs conditions = true ↔
          ∀ c ∈ conditions,
            reMatch c.2 (conditionValueString (attrs c.1)) = true)) ∧
      _match_process re_match_literal chromiumAttrs
          [("name", "^chrom")] = true ∧
      _match_process re_match_literal googleChromiumAttrs
          [("name", "^chrom")] = false ∧
      conditionValueString (AttrValue.int 443) = "443" ∧
      conditionValueString (AttrValue.strList ["chrome", "--headless"]) =
        "chrome --headless" := by
  refine ⟨?_, by decide, by decide, rfl, rfl⟩
  intro reMatch attrs conditions
  induction conditions with
  | nil => simp [_match_process]
  | cons c rest ih =>
    obtain ⟨name, regex⟩ := c
    cases hc : reMatch regex (conditionValueString (attrs name)) with
    | true =>
      have hL : _match_process reMatch attrs ((name, regex) :: rest) =
          _match_process reMatch attrs rest := by
        simp [_match_process, hc]
      rw [hL, ih]
      constructor
      · intro hall c hmem
        rcases List.mem_cons.mp hmem with h | hm
        · subst h; exact hc
        · exact hall c hm
      · intro hall c hm
        exact hall c (List.mem_cons_of_mem _ hm)
    | false =>
      have hL : _match_process reMatch attrs ((name, regex) :: rest) =
          false := by
        simp [_match_process, hc]
      rw [hL]
      simp only [Bool.false_eq_true, false_iff]
      intro hall
      have h1 := hall (name, regex) (List.mem_cons_self _ _)
      rw [hc] at h1
      exact absurd h1 (by decide)

/-- C7 (witness): the universally quantified part of the matching theorem
at a concrete process and predicate set. -/
theorem c7_predicate_matching_witness :
    _match_process re_match_literal chromiumAttrs
      [("name", "^chrom"), ("exe", "chrom")] = true :=
  (c7_predicate_matching.1 re_match_literal chromiumAttrs
    [("name", "^chrom"), ("exe", "chrom")]).mpr (by decide)

/-- C8: whenever `tc_add_u32_filter` returns a handle, the handle is an
element of the difference between the filter handles observed after the
insertion and those observed before; when that difference has more than
one element, the ambiguity warning is logged and the returned handle is
still one of the difference's elements. -/
theorem c8_handle_from_difference (before after : List String) (h : String)
    (hret : tc_add_u32_filter before after = Except.ok h) :
    h ∈ filter_id_difference before after ∧
      (1 < (filter_id_difference before after).length →
        tc_add_u32_filter_warns before after = true) := by
  refine ⟨?_, fun hlen => by
    simp [tc_add_u32_filter_warns]
    omega⟩
  unfold tc_add_u32_filter at hret
  cases hl : filter_id_difference before after with
  | nil => rw [hl] at hret; exact absurd hret (by simp [List.head?])
  | cons a t =>
    rw [hl] at hret
    simp only [List.head?, Except.ok.injEq] at hret
    subst hret
    exact List.mem_cons_self _ _

/-- C8 (witness): with one pre-existing handle and two new handles
observed, the returned handle is in the two-element difference and the
warning fires. -/
theorem c8_handle_from_difference_witness :
    "800::801" ∈ filter_id_difference ["800::800"]
        ["800::800", "800::801", "800::802"] ∧
      (1 < (filter_id_difference ["800::800"]
          ["800::800", "800::801", "800::802"]).length →
        tc_add_u32_filter_warns ["800::800"]
          ["800::800", "800::801", "800::802"] = true) :=
  c8_handle_from_difference ["800::800"]
    ["800::800", "800::801", "800::802"] "800::801" rfl

/-- C10: `tc_add_u32_filter` raises (`pop` from an empty set) exactly when
the filter handles observed after the insertion equal those observed
before, i.e. the difference is empty; it returns a handle only when at
least one new handle is observed. -/
theorem c10_empty_difference_raises (before after : List String) :
    tc_add_u32_filter before after =
        Except.error (PyExc.keyError "pop from an empty set") ↔
      filter_id_difference before after = [] := by
  unfold tc_add_u32_filter
  cases hl : filter_id_difference before after <;> simp [List.head?]

/-- C10 (witness): when the kernel silently rejects the filter and the
observed handle set is unchanged, the operation raises instead of
returning a handle. -/
theorem c10_empty_difference_raises_witness :
    tc_add_u32_filter ["1::1", "800::800"] ["1::1", "800::800"] =
      Except.error (PyExc.keyError "pop from an empty set") :=
  (c10_empty_difference_raises ["1::1", "800::800"]
    ["1::1", "800::800"]).mpr (by decide)

/-- C9: on a reconciliation tick, every group that was tracked but is
absent from the resolver's current output is swept: afterwards the group is
no longer tracked, the registry holds no entry in either direction for any
of its former ports, and for each former port that carried a handle the
corresponding `tc_remove_u32_filter` call was issued in that direction. -/
theorem c9_stale_group_swept (current : List String) (st : LoopState)
    (name : String) (ports : List Nat)
    (hvals : registry_values_truthy st)
    (htracked : alookup name st.filteredPorts = some ports)
    (hstale : name ∉ current) :
    alookup name (remove_stale_groups st current).filteredPorts = none ∧
      (∀ p0 ∈ ports,
        alookup p0 (remove_stale_groups st current).ingressFilters = none ∧
          alookup p0 (remove_stale_groups st current).egressFilters =
            none) ∧
      (∀ p0 ∈ ports, ∀ fid : String,
        alookup p0 st.ingressFilters = some fid →
          (TrafficType.ingress, fid) ∈
            (remove_stale_groups st current).removedCalls) ∧
      (∀ p0 ∈ ports, ∀ fid : String,
        alookup p0 st.egressFilters = some fid →
          (TrafficType.egress, fid) ∈
            (remove_stale_groups st current).removedCalls) := by
  have hname : name ∈ (st.filteredPorts.map Prod.fst).filter
      (fun n => decide (n ∉ current)) :=
    List.mem_filter.mpr
      ⟨alookup_mem_map_fst htracked, decide_eq_true hstale⟩
  obtain ⟨h1, h2, h3, h4⟩ :=
    rsgs_fold_removes _ st name ports hvals htracked hname
  exact ⟨h1, h2,
    fun p0 hp fid hf => h3 p0 hp fid (Or.inl hf),
    fun p0 hp fid hf => h4 p0 hp fid (Or.inl hf)⟩

/-- C9 (witness): the `nginx` group of `exampleLoopState` does not resolve,
so the tick unregisters it, empties both registries for port 80, and issues
both removal calls for its handles. -/
theorem c9_stale_group_swept_witness :
    alookup "nginx" (remove_stale_groups exampleLoopState
        []).filteredPorts = none ∧
      alookup 80 (remove_stale_groups exampleLoopState
        []).ingressFilters = none ∧
      alookup 80 (remove_stale_groups exampleLoopState
        []).egressFilters = none ∧
      (TrafficType.ingress, "800::800") ∈
        (remove_stale_groups exampleLoopState []).removedCalls ∧
      (TrafficType.egress, "801::800") ∈
        (remove_stale_groups exampleLoopState []).removedCalls :=
  ⟨(c9_stale_group_swept [] exampleLoopState "nginx" [80, 443] (by decide)
      (by decide) (by decide)).1,
   ((c9_stale_group_swept [] exampleLoopState "nginx" [80, 443] (by decide)
      (by decide) (by decide)).2.1 80 (by decide)).1,
   ((c9_stale_group_swept [] exampleLoopState "nginx" [80, 443] (by decide)
      (by decide) (by decide)).2.1 80 (by decide)).2,
   (c9_stale_group_swept [] exampleLoopState "nginx" [80, 443] (by decide)
      (by decide) (by decide)).2.2.1 80 (by decide) "800::800" (by decide),
   (c9_stale_group_swept [] exampleLoopState "nginx" [80, 443] (by decide)
      (by decide) (by decide)).2.2.2 80 (by decide) "801::800" (by decide)⟩

end TrafficToll
